import Mathlib

/-!
Verification of the ChatMMAPicks chat backend (utils/chat.py).

The Python source is shallowly embedded below, all definitions first
and all theorems after them.  Database tables become lists inside a
`Store` structure; every Supabase read becomes a pure function of the
store (the code only issues `select` queries), and the fight-context
aggregation is embedded with explicit state passing so that its
read-only behaviour is a theorem rather than a convention.  String
primitives (lower, strip, split, title, substring) are modelled over
`List Char` with structural recursion so that concrete runs reduce in
the kernel.  The rapidfuzz similarity metric `fuzz.token_set_ratio` is
an external library and is abstracted as a parameter
`score : String -> String -> Nat` (a similarity in [0,100]); theorems
hold for every such metric and concrete witnesses use an exact-match
metric.  The Anthropic model call is likewise external and is
abstracted as a fallible function into an `Except` monad: a Python
exception that propagates corresponds to `Except.error`, and the
prompt-building collaborators (pure string renderers that play no role
in control flow) are abstracted as a `Generators` record.  Python list
sorting with `reverse=True` is stable descending order, modelled by
`List.insertionSort` with the reversed key relation.
-/

/-- Scan for an occurrence of `sub` inside `l`; model of the Python
substring test `sub in q`. -/
def containsSub (sub : List Char) : List Char → Bool
  | [] => sub.isPrefixOf []
  | c :: rest => sub.isPrefixOf (c :: rest) || containsSub sub rest

/-- Model of the Python substring test `sub in q`. -/
def strContains (q sub : String) : Bool :=
  containsSub sub.data q.data

/-- Model of `str.lower()` (ASCII reading, which covers the data the
code handles). -/
def pyLower (s : String) : String :=
  String.mk (s.data.map Char.toLower)

/-- Case-insensitive containment, modelling an SQL `ilike "%pat%"` filter. -/
def containsCI (haystack pat : String) : Bool :=
  strContains (pyLower haystack) (pyLower pat)

/-- Model of `str.strip()`: drop leading and trailing whitespace. -/
def pyStrip (s : String) : String :=
  String.mk ((((s.data.dropWhile Char.isWhitespace).reverse).dropWhile
    Char.isWhitespace).reverse)

/-- Splitting on a separator with a fuel argument for structural
recursion; the fuel is always at least the length of the list, so the
fuel-exhausted branch is unreachable. -/
def splitGoFuel (sep : List Char) : Nat → List Char → List (List Char)
  | _, [] => [[]]
  | 0, l => [l]
  | fuel + 1, c :: rest =>
    if sep.isPrefixOf (c :: rest) then
      [] :: splitGoFuel sep fuel ((c :: rest).drop sep.length)
    else
      match splitGoFuel sep fuel rest with
      | [] => [[c]]
      | part :: parts => (c :: part) :: parts

/-- Model of the Python `q.split(sep)` for a non-empty separator:
non-overlapping, left to right. -/
def pySplit (q sep : String) : List String :=
  (splitGoFuel sep.data (q.data.length + 1) q.data).map String.mk

/-- Helper of `pyWords`: collect maximal runs of non-whitespace
characters (the accumulator is the reversed current word). -/
def wordsAux : List Char → List Char → List (List Char)
  | acc, [] => if acc.isEmpty then [] else [acc.reverse]
  | acc, c :: rest =>
    if c.isWhitespace then
      if acc.isEmpty then wordsAux [] rest else acc.reverse :: wordsAux [] rest
    else wordsAux (c :: acc) rest

/-- Model of the Python no-argument `str.split()`: split on runs of
whitespace, discarding empty fragments. -/
def pyWords (s : String) : List String :=
  (wordsAux [] s.data).map String.mk

/-- Join a list of words with single spaces; model of `" ".join(ws)`. -/
def joinWithSpace : List String → String
  | [] => ""
  | [w] => w
  | w :: rest => w ++ " " ++ joinWithSpace rest

/-- The apostrophe character, written by code to satisfy the character
class of the regex below. -/
def apos : Char := Char.ofNat 39

/-- The apostrophe as a one-character string (used in answer templates). -/
def aposS : String := String.mk [apos]

/-- Model of `re.sub(r"[^\w\s']", "", s)`: keep word characters,
whitespace and apostrophes, delete everything else (ASCII reading). -/
def stripPunct (s : String) : String :=
  String.mk (s.data.filter (fun c => c.isAlphanum || c == '_' || c.isWhitespace || c == apos))

/-- One step of the Python `str.title()` algorithm: a letter is
uppercased when the previous character was not a letter, lowercased
otherwise. The boolean argument records whether the previous character
was a letter. -/
def titleAux : Bool → List Char → List Char
  | _, [] => []
  | prevAlpha, c :: cs =>
    if c.isAlpha then
      (if prevAlpha then c.toLower else c.toUpper) :: titleAux true cs
    else
      c :: titleAux false cs

/-- Model of the Python `str.title()`. -/
def titleCase (s : String) : String :=
  String.mk (titleAux false s.data)

/-- First-occurrence deduplication with an accumulator of already seen
elements; models the key order of a Python `collections.Counter` /
`dict` (insertion order) and is also used as the deterministic model of
the iteration order of a Python `set` built from a list. -/
def firstDedupAux (seen : List String) : List String → List String
  | [] => []
  | x :: xs =>
    if x ∈ seen then firstDedupAux seen xs
    else x :: firstDedupAux (x :: seen) xs

/-- Deduplicate keeping first occurrences in order. -/
def firstDedup (l : List String) : List String :=
  firstDedupAux [] l

/-- Model of `collections.Counter(l)` as an association list whose keys
appear in first-occurrence (insertion) order. -/
def counter (l : List String) : List (String × Nat) :=
  (firstDedup l).map (fun t => (t, l.count t))

/-- Python truthiness filter for optional strings: `p.get(k)` is truthy
iff the field is present and non-empty. -/
def truthyOpt : Option String → Option String
  | none => none
  | some s => if s = "" then none else some s

/-- Stable sort, descending by `key`; model of
`list.sort(key=key, reverse=True)`. -/
def sortDescBy {α β : Type} [LinearOrder β] (key : α → β) (l : List α) : List α :=
  List.insertionSort (fun x y => key y ≤ key x) l

structure Event where
  event_id : Nat
  name : String
  date : Option Int
  location : Option String := none
deriving DecidableEq

structure Fight where
  fight_id : Nat
  event_id : Nat
  fighter_a : String
  fighter_b : String
  weight_class : Option String := none
  bout_order : Option Nat := none
  status : Option String := none
deriving DecidableEq

structure AnalystPick where
  pick_id : Nat
  fight_id : Nat
  analyst_name : String
  platform : Option String := none
  picked_fighter : Option String
  method_prediction : Option String := none
  confidence_tag : Option String := none
  reasoning_notes : Option String := none
deriving DecidableEq

structure PickTagRow where
  pick_id : Nat
  tag : String
deriving DecidableEq

/-- The read-only store (the Supabase database as seen by the chat
backend). -/
structure Store where
  events : List Event
  fights : List Fight
  analyst_picks : List AnalystPick
  pick_tags : List PickTagRow
deriving DecidableEq

/-- An analyst pick with its tags pre-attached, as produced by
`QueryOptimizer._get_picks_for_fight`. -/
structure TaggedPick where
  pick_id : Nat
  analyst_name : String
  platform : Option String := none
  picked_fighter : Option String
  method_prediction : Option String := none
  confidence_tag : Option String := none
  reasoning_notes : Option String := none
  tags : List String := []
deriving DecidableEq

/-- Sort key for `order("date", desc=True)`: SQL descending order puts
null dates first, so a missing date maps to the top element. -/
def dateKey : Option Int → WithTop Int
  | none => ⊤
  | some d => (d : WithTop Int)

/-- Model of `QueryOptimizer._get_event`: case-insensitive substring
lookup on the event name, most recent date first, first row wins. -/
def get_event (s : Store) (event_name : String) : Option Event :=
  (sortDescBy (fun e => dateKey e.date) (s.events.filter (fun e => containsCI e.name event_name))).head?

/-- Model of `QueryOptimizer._get_fights_for_event`. -/
def get_fights_for_event (s : Store) (event_id : Nat) : List Fight :=
  s.fights.filter (fun f => f.event_id == event_id)

/-- Model of `QueryOptimizer._get_picks_for_fight`: the picks of a
fight, in table order, with the tag rows of each pick attached. -/
def get_picks_for_fight (s : Store) (fight_id : Nat) : List TaggedPick :=
  (s.analyst_picks.filter (fun p => p.fight_id == fight_id)).map (fun p =>
    { pick_id := p.pick_id
      analyst_name := p.analyst_name
      platform := p.platform
      picked_fighter := p.picked_fighter
      method_prediction := p.method_prediction
      confidence_tag := p.confidence_tag
      reasoning_notes := p.reasoning_notes
      tags := (s.pick_tags.filter (fun t => t.pick_id == p.pick_id)).map (fun t => t.tag) })

/-- Model of the most-recent-event fallback query used by
`ChatMMABot._extract_event_name`. -/
def most_recent_event (s : Store) : Option Event :=
  (sortDescBy (fun e => dateKey e.date) s.events).head?

/-- The similarity score of a pick against a fighter name, including
the lowercasing and the `or ""` default applied by the source. -/
def pickScore (score : String → String → Nat) (p : TaggedPick) (fighter : String) : Nat :=
  score (pyLower (p.picked_fighter.getD "")) (pyLower fighter)

/-- Model of `QueryOptimizer._classify_picks`: split picks into those
for `fighter_a` and those for `fighter_b`; a pick goes to side A when
its A-score is at least its B-score and at least 60, to side B when its
B-score is strictly greater and at least 60, and is dropped otherwise. -/
def classify_picks (score : String → String → Nat) (picks : List TaggedPick)
    (fighter_a fighter_b : String) : List TaggedPick × List TaggedPick :=
  match picks with
  | [] => ([], [])
  | p :: rest =>
    let (pa, pb) := classify_picks score rest fighter_a fighter_b
    let score_a := pickScore score p fighter_a
    let score_b := pickScore score p fighter_b
    if score_b ≤ score_a ∧ 60 ≤ score_a then (p :: pa, pb)
    else if score_a < score_b ∧ 60 ≤ score_b then (pa, p :: pb)
    else (pa, pb)

/-- Side-A membership condition of `_classify_picks`. -/
def condA (score : String → String → Nat) (fighter_a fighter_b : String)
    (p : TaggedPick) : Bool :=
  pickScore score p fighter_b ≤ pickScore score p fighter_a ∧ 60 ≤ pickScore score p fighter_a

/-- Side-B membership condition of `_classify_picks`. -/
def condB (score : String → String → Nat) (fighter_a fighter_b : String)
    (p : TaggedPick) : Bool :=
  pickScore score p fighter_a < pickScore score p fighter_b ∧ 60 ≤ pickScore score p fighter_b

structure TagCount where
  tag : String
  count : Nat
deriving DecidableEq

structure FighterContext where
  top_tags : List TagCount
  methods : List (String × Nat)
  example_rationales : List String
deriving DecidableEq

/-- Model of `collections.Counter.most_common(n)`: entries sorted by
count descending, ties kept in key-insertion order (CPython sorts the
items with a stable sort on the count). -/
def most_common (n : Nat) (items : List (String × Nat)) : List (String × Nat) :=
  (sortDescBy (fun it => it.2) items).take n

/-- Model of `QueryOptimizer._build_fighter_context`: top five tags with
counts, method-prediction counts, and up to three non-empty
reasoning-note excerpts in first-encountered order. -/
def build_fighter_context (picks : List TaggedPick) : FighterContext :=
  let all_tags := (picks.map (fun p => p.tags)).flatten
  { top_tags := (most_common 5 (counter all_tags)).map (fun it => { tag := it.1, count := it.2 })
    methods := counter (picks.filterMap (fun p => truthyOpt p.method_prediction))
    example_rationales := (picks.filterMap (fun p => truthyOpt p.reasoning_notes)).take 3 }

/-- Result shape of `QueryOptimizer._format_fight_row`. -/
structure FightRow where
  fight_id : Nat
  fighter_a : String
  fighter_b : String
  event : String
  date : Option Int
  results_entered : Bool
deriving DecidableEq

/-- Model of `QueryOptimizer._format_fight_row` on a fight joined with
its (possibly missing) event row. -/
def format_fight_row (row : Fight × Option Event) : FightRow :=
  { fight_id := row.1.fight_id
    fighter_a := row.1.fighter_a
    fighter_b := row.1.fighter_b
    event := (row.2.map (fun e => e.name)).getD "Unknown Event"
    date := row.2.bind (fun e => e.date)
    results_entered := false }

/-- Model of the inner `_try_order` query of `get_fight_by_fighters`:
fights whose stored sides contain the two hints as case-insensitive
substrings, joined with their event, newest event date first (null
dates first), limited to five rows. -/
def try_order (s : Store) (fa_hint fb_hint : String) : List (Fight × Option Event) :=
  (sortDescBy (fun row => dateKey (row.2.bind (fun e => e.date)))
    ((s.fights.filter (fun f =>
        containsCI f.fighter_a fa_hint && containsCI f.fighter_b fb_hint)).map
      (fun f => (f, s.events.find? (fun e => e.event_id == f.event_id))))).take 5

/-- Selection of a row from a non-empty `_try_order` result: prefer the
first row whose event name contains the event hint, else the first row. -/
def pick_fight_row (rows : List (Fight × Option Event)) (event_name : Option String) :
    Option FightRow :=
  match rows with
  | [] => none
  | r :: _ =>
    match event_name with
    | some en =>
      match rows.find? (fun row => containsCI ((row.2.map (fun e => e.name)).getD "") en) with
      | some m => some (format_fight_row m)
      | none => some (format_fight_row r)
    | none => some (format_fight_row r)

/-- Model of `QueryOptimizer.get_fight_by_fighters`: try both hint
orderings, preferring the given event when one is named. -/
def get_fight_by_fighters (s : Store) (fighter_a_hint fighter_b_hint : String)
    (event_name : Option String) : Option FightRow :=
  match pick_fight_row (try_order s fighter_a_hint fighter_b_hint) event_name with
  | some fr => some fr
  | none => pick_fight_row (try_order s fighter_b_hint fighter_a_hint) event_name

structure FightInfo where
  fighter_a : String
  fighter_b : String
  event : String
  results_entered : Bool
deriving DecidableEq

structure Summary where
  total_predictions : Nat
  picks_for_a : Nat
  picks_for_b : Nat
deriving DecidableEq

structure AnalystInfo where
  fighter_a_high_accuracy_count : Nat
  fighter_b_high_accuracy_count : Nat
  reveal_names : Bool
  top_analysts_a : List String
  top_analysts_b : List String
deriving DecidableEq

structure FightContext where
  fight : FightInfo
  summary : Summary
  fighter_a_context : FighterContext
  fighter_b_context : FighterContext
  analyst_info : AnalystInfo
deriving DecidableEq

/-- Store read returning the first fights row with the given id. -/
def fights_findS (fight_id : Nat) (s : Store) : Option Fight × Store :=
  (s.fights.find? (fun f => f.fight_id == fight_id), s)

/-- Store read returning the first events row with the given id. -/
def events_findS (event_id : Nat) (s : Store) : Option Event × Store :=
  (s.events.find? (fun e => e.event_id == event_id), s)

/-- Store read for the picks of a fight, with tags attached. -/
def get_picks_for_fightS (fight_id : Nat) (s : Store) : List TaggedPick × Store :=
  (get_picks_for_fight s fight_id, s)

/-- Pure part of `aggregate_fight_context` after the picks have been
fetched: classification and the construction of the context object.
The iteration order of the Python sets in `top_analysts_a` and
`top_analysts_b` is modelled as first-occurrence order (within one
process the set is rebuilt identically on every call). -/
def build_fight_context (score : String → String → Nat) (meta : FightRow)
    (picks : List TaggedPick) : FightContext :=
  let (picks_a, picks_b) := classify_picks score picks meta.fighter_a meta.fighter_b
  { fight :=
      { fighter_a := meta.fighter_a
        fighter_b := meta.fighter_b
        event := meta.event
        results_entered := meta.results_entered }
    summary :=
      { total_predictions := picks.length
        picks_for_a := picks_a.length
        picks_for_b := picks_b.length }
    fighter_a_context := build_fighter_context picks_a
    fighter_b_context := build_fighter_context picks_b
    analyst_info :=
      { fighter_a_high_accuracy_count := picks_a.length
        fighter_b_high_accuracy_count := picks_b.length
        reveal_names := true
        top_analysts_a := (firstDedup (picks_a.map (fun p => p.analyst_name))).take 5
        top_analysts_b := (firstDedup (picks_b.map (fun p => p.analyst_name))).take 5 } }

/-- Model of `QueryOptimizer.aggregate_fight_context` with explicit
state threading through every store read. -/
def aggregate_fight_contextS (score : String → String → Nat) (fight_id : Nat)
    (fight_meta : Option FightRow) (s : Store) : Option FightContext × Store :=
  let metaAndStore : Option FightRow × Store :=
    match fight_meta with
    | some m => (some m, s)
    | none =>
      let (row?, s) := fights_findS fight_id s
      match row? with
      | none => (none, s)
      | some row =>
        let (ev?, s) := events_findS row.event_id s
        (some
          { fight_id := fight_id
            fighter_a := row.fighter_a
            fighter_b := row.fighter_b
            event := ((ev?.map (fun e => e.name)).getD "Unknown Event")
            date := ev?.bind (fun e => e.date)
            results_entered := false }, s)
  let (meta?, s) := metaAndStore
  match meta? with
  | none => (none, s)
  | some meta =>
    let (picks, s) := get_picks_for_fightS fight_id s
    if picks.isEmpty then (none, s)
    else (some (build_fight_context score meta picks), s)

/-- The value computed by `aggregate_fight_context` (first component of
the stateful embedding). -/
def aggregate_fight_context (score : String → String → Nat) (s : Store) (fight_id : Nat)
    (fight_meta : Option FightRow) : Option FightContext :=
  (aggregate_fight_contextS score fight_id fight_meta s).1

structure ConsensusEntry where
  fight : String
  fighter_a : String
  fighter_b : String
  consensus_fighter : String
  consensus_count : Nat
  opposing_count : Nat
  total_predictions : Nat
  consensus_percentage : Rat
  high_accuracy_count : Nat
deriving DecidableEq

structure ConsensusResult where
  event : String
  results_entered : Bool
  consensus_picks : List ConsensusEntry
deriving DecidableEq

/-- The loop body of `get_event_consensus_picks` for one fight: skip
fights with no picks and fights with no classified picks, otherwise
build the consensus entry. -/
def consensus_entry_for_fight (score : String → String → Nat) (s : Store)
    (fight : Fight) : Option ConsensusEntry :=
  let picks := get_picks_for_fight s fight.fight_id
  if picks.isEmpty then none
  else
    let (picks_a, picks_b) := classify_picks score picks fight.fighter_a fight.fighter_b
    let total := picks_a.length + picks_b.length
    if total = 0 then none
    else
      some
        { fight := fight.fighter_a ++ " vs " ++ fight.fighter_b
          fighter_a := fight.fighter_a
          fighter_b := fight.fighter_b
          consensus_fighter :=
            if picks_b.length ≤ picks_a.length then fight.fighter_a else fight.fighter_b
          consensus_count := max picks_a.length picks_b.length
          opposing_count := min picks_a.length picks_b.length
          total_predictions := total
          consensus_percentage := ((max picks_a.length picks_b.length : Rat) / total) * 100
          high_accuracy_count := max picks_a.length picks_b.length }

/-- Model of `QueryOptimizer.get_event_consensus_picks`. -/
def get_event_consensus_picks (score : String → String → Nat) (s : Store)
    (event_name : String) : Option ConsensusResult :=
  match get_event s event_name with
  | none => none
  | some event =>
    some
      { event := event.name
        results_entered := false
        consensus_picks :=
          sortDescBy (fun e => e.consensus_percentage)
            ((get_fights_for_event s event.event_id).filterMap
              (consensus_entry_for_fight score s)) }

structure MethodItem where
  method : String
deriving DecidableEq

structure InsideEntry where
  fight : String
  fighter_a : String
  fighter_b : String
  favored_fighter : String
  finish_prediction_count : Nat
  methods : List MethodItem
  total_finish_predictions : Nat
deriving DecidableEq

structure InsideResult where
  event : String
  inside_distance_picks : List InsideEntry
deriving DecidableEq

/-- The finish-type method tokens accepted by
`get_inside_distance_picks`. -/
def finish_methods : List String := ["KO/TKO", "Submission", "KO", "TKO", "Sub"]

/-- Whether a pick predicts a finish: its method is present and one of
the finish-type tokens (`p.get("method_prediction") in finish_methods`). -/
def is_finish_pick (p : TaggedPick) : Bool :=
  match p.method_prediction with
  | none => false
  | some m => m ∈ finish_methods

/-- The loop body of `get_inside_distance_picks` for one fight: at least
three finish-type picks are required, and at least one of them must
classify to a side; the favored side is the one with more finish picks
(side A on a tie). -/
def inside_entry_for_fight (score : String → String → Nat) (s : Store)
    (fight : Fight) : Option InsideEntry :=
  let picks := get_picks_for_fight s fight.fight_id
  let finish_picks := picks.filter is_finish_pick
  if finish_picks.length < 3 then none
  else
    let (picks_a, picks_b) := classify_picks score finish_picks fight.fighter_a fight.fighter_b
    let fa_count := picks_a.length
    let fb_count := picks_b.length
    if fa_count = 0 ∧ fb_count = 0 then none
    else
      let favored := if fb_count ≤ fa_count then fight.fighter_a else fight.fighter_b
      let method_picks := if favored = fight.fighter_a then picks_a else picks_b
      some
        { fight := fight.fighter_a ++ " vs " ++ fight.fighter_b
          fighter_a := fight.fighter_a
          fighter_b := fight.fighter_b
          favored_fighter := favored
          finish_prediction_count := max fa_count fb_count
          methods :=
            (method_picks.filterMap (fun p => truthyOpt p.method_prediction)).map
              (fun m => { method := m })
          total_finish_predictions := finish_picks.length }

/-- Model of `QueryOptimizer.get_inside_distance_picks`. -/
def get_inside_distance_picks (score : String → String → Nat) (s : Store)
    (event_name : String) : Option InsideResult :=
  match get_event s event_name with
  | none => none
  | some event =>
    some
      { event := event.name
        inside_distance_picks :=
          sortDescBy (fun e => e.finish_prediction_count)
            ((get_fights_for_event s event.event_id).filterMap
              (inside_entry_for_fight score s)) }

structure AnalystNote where
  name : String
  accuracy : Nat
  reasoning : Option String
deriving DecidableEq

structure UnderdogEntry where
  fight : String
  fighter_a : String
  fighter_b : String
  underdog : String
  underdog_count : Nat
  favorite_count : Nat
  total_predictions : Nat
  underdog_percentage : Rat
  high_accuracy_analysts : List AnalystNote
  value_score : Rat
  top_tags : List TagCount
deriving DecidableEq

structure UnderdogResult where
  event : String
  results_entered : Bool
  underdog_picks : List UnderdogEntry
deriving DecidableEq

/-- The loop body of `get_event_underdogs` for one fight: at least five
classified picks, underdog side (strict minority; on a tie side B is
named but then always rejected), underdog count at least 2 and strictly
below half the classified total. -/
def underdog_entry_for_fight (score : String → String → Nat) (s : Store)
    (fight : Fight) : Option UnderdogEntry :=
  let picks := get_picks_for_fight s fight.fight_id
  let (picks_a, picks_b) := classify_picks score picks fight.fighter_a fight.fighter_b
  let total := picks_a.length + picks_b.length
  if total < 5 then none
  else
    let underdog_is_a := picks_a.length < picks_b.length
    let underdog_fighter := if underdog_is_a then fight.fighter_a else fight.fighter_b
    let underdog_picks_list := if underdog_is_a then picks_a else picks_b
    let favorite_picks_list := if underdog_is_a then picks_b else picks_a
    let underdog_count := underdog_picks_list.length
    let favorite_count := favorite_picks_list.length
    if underdog_count < 2 ∨ (total : Rat) / 2 ≤ (underdog_count : Rat) then none
    else
      let all_tags := (underdog_picks_list.map (fun p => p.tags)).flatten
      some
        { fight := fight.fighter_a ++ " vs " ++ fight.fighter_b
          fighter_a := fight.fighter_a
          fighter_b := fight.fighter_b
          underdog := underdog_fighter
          underdog_count := underdog_count
          favorite_count := favorite_count
          total_predictions := total
          underdog_percentage := ((underdog_count : Rat) / total) * 100
          high_accuracy_analysts :=
            underdog_picks_list.map (fun p =>
              { name := p.analyst_name, accuracy := 0, reasoning := p.reasoning_notes })
          value_score := (underdog_count : Rat) / total
          top_tags := (most_common 3 (counter all_tags)).map (fun it => { tag := it.1, count := it.2 }) }

/-- Model of `QueryOptimizer.get_event_underdogs`. -/
def get_event_underdogs (score : String → String → Nat) (s : Store)
    (event_name : String) : Option UnderdogResult :=
  match get_event s event_name with
  | none => none
  | some event =>
    some
      { event := event.name
        results_entered := false
        underdog_picks :=
          sortDescBy (fun e => e.value_score)
            ((get_fights_for_event s event.event_id).filterMap
              (underdog_entry_for_fight score s)) }

/-- Keyword set routed to the inside-the-distance handler. -/
def insideKeywords : List String :=
  ["inside the distance", "inside distance", "finish", "knockout", " ko ", "submission",
   "most likely to finish", "not go the distance"]

/-- Keyword set routed to the consensus handler. -/
def consensusKeywords : List String :=
  ["consensus", "top picks", "favorites", "who should win", "most likely to win",
   "best bets", "safest picks", "locks"]

/-- Keyword set routed to the underdog handler. -/
def underdogKeywords : List String :=
  ["underdog", "upset", "dark horse", "value pick", "sleeper", "best underdog",
   "undervalued", "contrarian"]

/-- The fighter-vs-fighter separators, tried in order. -/
def vsSeparators : List String := [" vs ", " vs. ", " versus ", " v ", " against "]

/-- Extraction of one fighter hint from the text on one side of a
separator: take up to two words (the last ones for side A, the first
ones for side B), strip punctuation, trim and title-case. -/
def extractFighter (takeLast : Bool) (part : String) : String :=
  let ws := pyWords (pyStrip part)
  let chosen :=
    if takeLast then
      (if 2 ≤ ws.length then ws.drop (ws.length - 2) else ws.drop (ws.length - 1))
    else
      (if 2 ≤ ws.length then ws.take 2 else ws.take 1)
  titleCase (pyStrip (stripPunct (joinWithSpace chosen)))

/-- The separator loop of `detect_query_type`: find the first separator
occurring in the question with at least two split parts and extract the
two fighter hints. -/
def trySeparators (q : String) : List String → Option (String × String)
  | [] => none
  | sep :: rest =>
    if strContains q sep then
      match pySplit q sep with
      | p0 :: p1 :: _ => some (extractFighter true p0, extractFighter false p1)
      | _ => trySeparators q rest
    else trySeparators q rest

/-- Match of the regex alternation `(\d+|vegas\s+\d+|fight\s+night\s+\d+)`
at the start of a character list; returns the text the group consumed. -/
def matchGroupAt (cs : List Char) : Option (List Char) :=
  let digits := cs.takeWhile Char.isDigit
  if digits ≠ [] then some digits
  else if "vegas".data.isPrefixOf cs then
    let rest := cs.drop 5
    let ws := rest.takeWhile Char.isWhitespace
    if ws = [] then none
    else
      let ds := (rest.drop ws.length).takeWhile Char.isDigit
      if ds = [] then none else some ("vegas".data ++ ws ++ ds)
  else if "fight".data.isPrefixOf cs then
    let rest := cs.drop 5
    let ws1 := rest.takeWhile Char.isWhitespace
    if ws1 = [] then none
    else
      let r1 := rest.drop ws1.length
      if "night".data.isPrefixOf r1 then
        let r2 := r1.drop 5
        let ws2 := r2.takeWhile Char.isWhitespace
        if ws2 = [] then none
        else
          let ds := (r2.drop ws2.length).takeWhile Char.isDigit
          if ds = [] then none else some ("fight".data ++ ws1 ++ "night".data ++ ws2 ++ ds)
      else none
  else none

/-- Match of the full regex `ufc\s+(...)` at the start of a character
list. -/
def matchUfcAt (cs : List Char) : Option (List Char) :=
  if "ufc".data.isPrefixOf cs then
    let rest := cs.drop 3
    let ws := rest.takeWhile Char.isWhitespace
    if ws = [] then none else matchGroupAt (rest.drop ws.length)
  else none

/-- Leftmost-position search of the regex
`ufc\s+(\d+|vegas\s+\d+|fight\s+night\s+\d+)`; returns the first group. -/
def searchUfc : List Char → Option (List Char)
  | [] => none
  | c :: cs =>
    match matchUfcAt (c :: cs) with
    | some g => some g
    | none => searchUfc cs

/-- Model of `ChatMMABot._extract_event_name`: regex for a UFC event
token (title-cased, prefixed with "UFC "), else fall back to the most
recent event in the store. -/
def extract_event_name (s : Store) (q : String) : Option String :=
  match searchUfc q.data with
  | some g => some ("UFC " ++ titleCase (String.mk g))
  | none => (most_recent_event s).map (fun e => e.name)

/-- The five query intents, with the parameters the classifier
extracts for each. -/
inductive QueryType where
  | fight_specific (fighter_a fighter_b : String) (event_name : Option String)
  | inside_distance (event_name : Option String)
  | consensus_picks (event_name : Option String)
  | underdogs (event_name : Option String)
  | general
deriving DecidableEq

/-- Model of `ChatMMABot.detect_query_type`: lowercase the question and
test the keyword sets in priority order (inside-distance, consensus,
underdogs), then the fighter-vs-fighter separators, else general. -/
def detect_query_type (s : Store) (question : String) : QueryType :=
  let q := pyLower question
  if insideKeywords.any (fun kw => strContains q kw) then
    .inside_distance (extract_event_name s q)
  else if consensusKeywords.any (fun kw => strContains q kw) then
    .consensus_picks (extract_event_name s q)
  else if underdogKeywords.any (fun kw => strContains q kw) then
    .underdogs (extract_event_name s q)
  else
    match trySeparators q vsSeparators with
    | some (fa, fb) => .fight_specific fa fb none
    | none => .general

structure Usage where
  input_tokens : Nat
  output_tokens : Nat
deriving DecidableEq

structure CostInfo where
  input_tokens : Nat
  output_tokens : Nat
  total_tokens : Nat
  cost_usd : Rat
deriving DecidableEq

/-- Rounding to `n` decimal places. -/
def roundTo (n : Nat) (x : Rat) : Rat :=
  ((round (x * 10 ^ n) : Int) : Rat) / 10 ^ n

/-- Model of `ChatMMABot._estimate_cost`. -/
def estimate_cost (usage : Usage) : CostInfo :=
  let input_cost : Rat := ((usage.input_tokens : Rat) / 1000000) * 3
  let output_cost : Rat := ((usage.output_tokens : Rat) / 1000000) * 15
  { input_tokens := usage.input_tokens
    output_tokens := usage.output_tokens
    total_tokens := usage.input_tokens + usage.output_tokens
    cost_usd := roundTo 5 (input_cost + output_cost) }

/-- The prompt builders of `PromptGenerator`, abstracted as pure
rendering functions (one per intent). -/
structure Generators where
  build_fight_analysis_prompt : FightContext → String → String
  build_inside_distance_prompt : InsideResult → String → String
  build_consensus_picks_prompt : ConsensusResult → String → String
  build_underdogs_prompt : UnderdogResult → String → String
  build_general_prompt : String → String

/-- Metadata of an answer; optional fields are absent keys. -/
structure AnswerMeta where
  query_type : String
  fight : Option FightRow := none
  cost_estimate : Option CostInfo := none
deriving DecidableEq

/-- The result object the orchestrator hands to the caller. -/
structure AnswerResult where
  answer : String
  metadata : AnswerMeta
deriving DecidableEq

/-- Model of `ChatMMABot._call_claude`: submit the prompt, then attach
the cost estimate; a model failure propagates. -/
def call_claude {eps : Type} (callModel : String → Nat → Except eps (String × Usage))
    (prompt : String) (max_tokens : Nat) : Except eps (String × CostInfo) := do
  let (text, usage) ← callModel prompt max_tokens
  pure (text, estimate_cost usage)

/-- The templated no-predictions answer of `_handle_fight_specific`. -/
def no_predictions_answer (fight : FightRow) : AnswerResult :=
  { answer := "Found the fight, but there are no analyst predictions yet for " ++
      fight.fighter_a ++ " vs " ++ fight.fighter_b ++
      ". Try ingesting some articles from the URL Ingestion page."
    metadata := { query_type := "no_predictions" } }

/-- Model of `ChatMMABot._handle_fight_specific`. -/
def handle_fight_specific {eps : Type} (score : String → String → Nat) (gens : Generators)
    (callModel : String → Nat → Except eps (String × Usage)) (s : Store)
    (question fighter_a fighter_b : String) (event_name : Option String) :
    Except eps AnswerResult :=
  match get_fight_by_fighters s fighter_a fighter_b event_name with
  | none =>
    Except.ok
      { answer := "I couldn" ++ aposS ++ "t find a fight between " ++ fighter_a ++ " and " ++
          fighter_b ++ ". Please check the fighter names or try specifying the event."
        metadata := { query_type := "fight_not_found" } }
  | some fight =>
    match aggregate_fight_context score s fight.fight_id (some fight) with
    | none => Except.ok (no_predictions_answer fight)
    | some context =>
      if context.summary.total_predictions = 0 then Except.ok (no_predictions_answer fight)
      else do
        let (answer, cost) ←
          call_claude callModel (gens.build_fight_analysis_prompt context question) 800
        Except.ok
          { answer := answer
            metadata :=
              { query_type := "fight_analysis", fight := some fight,
                cost_estimate := some cost } }

/-- Model of `ChatMMABot._handle_inside_distance`. -/
def handle_inside_distance {eps : Type} (score : String → String → Nat) (gens : Generators)
    (callModel : String → Nat → Except eps (String × Usage)) (s : Store)
    (question : String) (event_name : Option String) : Except eps AnswerResult :=
  match event_name with
  | none =>
    Except.ok
      { answer := "Please specify an event (e.g., " ++ aposS ++ "UFC 309" ++ aposS ++
          ") to get inside-distance predictions."
        metadata := { query_type := "missing_event" } }
  | some en =>
    match get_inside_distance_picks score s en with
    | none =>
      Except.ok
        { answer := "I don" ++ aposS ++ "t have predictions for " ++ aposS ++ en ++ aposS ++ " yet."
          metadata := { query_type := "event_not_found" } }
    | some context => do
      let (answer, cost) ←
        call_claude callModel (gens.build_inside_distance_prompt context question) 800
      Except.ok
        { answer := answer
          metadata := { query_type := "inside_distance", cost_estimate := some cost } }

/-- Model of `ChatMMABot._handle_consensus_picks`. -/
def handle_consensus_picks {eps : Type} (score : String → String → Nat) (gens : Generators)
    (callModel : String → Nat → Except eps (String × Usage)) (s : Store)
    (question : String) (event_name : Option String) : Except eps AnswerResult :=
  match event_name with
  | none =>
    Except.ok
      { answer := "Please specify an event (e.g., " ++ aposS ++ "UFC 309" ++ aposS ++
          ") to get consensus picks."
        metadata := { query_type := "missing_event" } }
  | some en =>
    match get_event_consensus_picks score s en with
    | none =>
      Except.ok
        { answer := "I don" ++ aposS ++ "t have predictions for " ++ aposS ++ en ++ aposS ++ " yet."
          metadata := { query_type := "event_not_found" } }
    | some context =>
      if context.consensus_picks.isEmpty then
        Except.ok
          { answer := "Found " ++ aposS ++ en ++ aposS ++
              ", but not enough predictions to determine consensus yet."
            metadata := { query_type := "no_consensus" } }
      else do
        let (answer, cost) ←
          call_claude callModel (gens.build_consensus_picks_prompt context question) 1000
        Except.ok
          { answer := answer
            metadata := { query_type := "consensus_picks", cost_estimate := some cost } }

/-- Model of `ChatMMABot._handle_underdogs`. -/
def handle_underdogs {eps : Type} (score : String → String → Nat) (gens : Generators)
    (callModel : String → Nat → Except eps (String × Usage)) (s : Store)
    (question : String) (event_name : Option String) : Except eps AnswerResult :=
  match event_name with
  | none =>
    Except.ok
      { answer := "Please specify an event (e.g., " ++ aposS ++ "UFC 309" ++ aposS ++
          ") to get underdog picks."
        metadata := { query_type := "missing_event" } }
  | some en =>
    match get_event_underdogs score s en with
    | none =>
      Except.ok
        { answer := "I don" ++ aposS ++ "t have predictions for " ++ aposS ++ en ++ aposS ++ " yet."
          metadata := { query_type := "event_not_found" } }
    | some context =>
      if context.underdog_picks.isEmpty then
        Except.ok
          { answer := "Found " ++ aposS ++ en ++ aposS ++
              ", but no clear underdogs — consensus is strong across all fights."
            metadata := { query_type := "no_underdogs" } }
      else do
        let (answer, cost) ←
          call_claude callModel (gens.build_underdogs_prompt context question) 1000
        Except.ok
          { answer := answer
            metadata := { query_type := "underdogs", cost_estimate := some cost } }

/-- Model of `ChatMMABot._handle_general`. -/
def handle_general {eps : Type} (gens : Generators)
    (callModel : String → Nat → Except eps (String × Usage)) (question : String) :
    Except eps AnswerResult := do
  let (answer, cost) ← call_claude callModel (gens.build_general_prompt question) 400
  Except.ok
    { answer := answer
      metadata := { query_type := "general", cost_estimate := some cost } }

/-- Model of `ChatMMABot.answer_question`: classify, then dispatch to
the handler of the detected intent.  There is no exception handling
here: an error from a handler (that is, from the model call inside it)
propagates to the caller. -/
def answer_question {eps : Type} (score : String → String → Nat) (gens : Generators)
    (callModel : String → Nat → Except eps (String × Usage)) (s : Store)
    (user_question : String) : Except eps AnswerResult :=
  match detect_query_type s user_question with
  | .fight_specific fa fb en => handle_fight_specific score gens callModel s user_question fa fb en
  | .inside_distance en => handle_inside_distance score gens callModel s user_question en
  | .consensus_picks en => handle_consensus_picks score gens callModel s user_question en
  | .underdogs en => handle_underdogs score gens callModel s user_question en
  | .general => handle_general gens callModel user_question

/-- An exact-match similarity metric (100 on equal strings, 0
otherwise); a concrete stand-in for the abstract fuzzy metric in the
closed witnesses below. -/
def exactScore : String → String → Nat := fun a b => if a = b then 100 else 0

/-- A pick for Alice, used by closed witnesses. -/
def pickAlice : TaggedPick :=
  { pick_id := 1, analyst_name := "a1", picked_fighter := some "Alice" }

/-- A store with one fight and a single unrelated pick ("XYZ"), for the
C2 counterexample. -/
def storeC2 : Store :=
  { events := []
    fights := []
    analyst_picks :=
      [{ pick_id := 1, fight_id := 1, analyst_name := "a1", picked_fighter := some "XYZ" }]
    pick_tags := [] }

/-- The pick of `storeC2` in tagged form. -/
def pickXYZ : TaggedPick :=
  { pick_id := 1, analyst_name := "a1", picked_fighter := some "XYZ" }

/-- Metadata for the fight of `storeC2`. -/
def metaC2 : FightRow :=
  { fight_id := 1, fighter_a := "Alice", fighter_b := "Bob", event := "UFC 100",
    date := none, results_entered := false }

/-- The demo store of the specification scenarios: event "UFC 100" with
one fight Alice-vs-Bob carrying picks [Alice, Alice, Alice, Bob]. -/
def demoStore : Store :=
  { events := [{ event_id := 1, name := "UFC 100", date := some 20090711 }]
    fights := [{ fight_id := 10, event_id := 1, fighter_a := "Alice", fighter_b := "Bob" }]
    analyst_picks :=
      [ { pick_id := 1, fight_id := 10, analyst_name := "a1", picked_fighter := some "Alice" },
        { pick_id := 2, fight_id := 10, analyst_name := "a2", picked_fighter := some "Alice" },
        { pick_id := 3, fight_id := 10, analyst_name := "a3", picked_fighter := some "Alice" },
        { pick_id := 4, fight_id := 10, analyst_name := "a4", picked_fighter := some "Bob" } ]
    pick_tags := [] }

/-- The fight of the underdog demo store. -/
def fightU : Fight :=
  { fight_id := 20, event_id := 2, fighter_a := "Alice", fighter_b := "Bob" }

/-- A store whose one fight splits 2-4 (Alice the underdog). -/
def storeU : Store :=
  { events := [{ event_id := 2, name := "UFC 200", date := some 20160709 }]
    fights := [fightU]
    analyst_picks :=
      [ { pick_id := 1, fight_id := 20, analyst_name := "a1", picked_fighter := some "Alice" },
        { pick_id := 2, fight_id := 20, analyst_name := "a2", picked_fighter := some "Alice" },
        { pick_id := 3, fight_id := 20, analyst_name := "a3", picked_fighter := some "Bob" },
        { pick_id := 4, fight_id := 20, analyst_name := "a4", picked_fighter := some "Bob" },
        { pick_id := 5, fight_id := 20, analyst_name := "a5", picked_fighter := some "Bob" },
        { pick_id := 6, fight_id := 20, analyst_name := "a6", picked_fighter := some "Bob" } ]
    pick_tags := [] }

/-- The underdog entry computed for `storeU`. -/
def entryU : UnderdogEntry :=
  { fight := "Alice vs Bob"
    fighter_a := "Alice"
    fighter_b := "Bob"
    underdog := "Alice"
    underdog_count := 2
    favorite_count := 4
    total_predictions := 6
    underdog_percentage := (((2 : Nat)) : Rat) / (((6 : Nat)) : Rat) * 100
    high_accuracy_analysts :=
      [ { name := "a1", accuracy := 0, reasoning := none },
        { name := "a2", accuracy := 0, reasoning := none } ]
    value_score := (((2 : Nat)) : Rat) / (((6 : Nat)) : Rat)
    top_tags := [] }

/-- A store whose one fight has three KO picks for Carl and a decision
pick for Dan. -/
def storeI : Store :=
  { events := [{ event_id := 3, name := "UFC 300", date := some 20240413 }]
    fights := [{ fight_id := 30, event_id := 3, fighter_a := "Carl", fighter_b := "Dan" }]
    analyst_picks :=
      [ { pick_id := 1, fight_id := 30, analyst_name := "a1", picked_fighter := some "Carl",
          method_prediction := some "KO" },
        { pick_id := 2, fight_id := 30, analyst_name := "a2", picked_fighter := some "Carl",
          method_prediction := some "KO" },
        { pick_id := 3, fight_id := 30, analyst_name := "a3", picked_fighter := some "Carl",
          method_prediction := some "KO" },
        { pick_id := 4, fight_id := 30, analyst_name := "a4", picked_fighter := some "Dan",
          method_prediction := some "Decision" } ]
    pick_tags := [] }

/-- Prompt builders that render nothing; a concrete stand-in for the
abstract prompt-building collaborators in closed statements. -/
def trivialGens : Generators :=
  { build_fight_analysis_prompt := fun _ _ => ""
    build_inside_distance_prompt := fun _ _ => ""
    build_consensus_picks_prompt := fun _ _ => ""
    build_underdogs_prompt := fun _ _ => ""
    build_general_prompt := fun _ => "" }

/-- An empty store. -/
def emptyStore : Store := { events := [], fights := [], analyst_picks := [], pick_tags := [] }

/-- The cost formula exactly as the specification words it. -/
def spec_cost_usd (input_tokens output_tokens : Nat) : Rat :=
  roundTo 5 (((input_tokens : Rat) / 1000000) * 3 + ((output_tokens : Rat) / 1000000) * 15)

/-! ### Theorems -/

theorem sorted_sortDescBy {α β : Type} [LinearOrder β] (key : α → β) (l : List α) :
    List.Sorted (fun x y => key y ≤ key x) (sortDescBy key l) := by
  haveI : IsTotal α (fun x y => key y ≤ key x) := ⟨fun a b => le_total (key b) (key a)⟩
  haveI : IsTrans α (fun x y => key y ≤ key x) := ⟨fun a b c h₁ h₂ => le_trans h₂ h₁⟩
  exact List.sorted_insertionSort _ l

theorem mem_sortDescBy {α β : Type} [LinearOrder β] (key : α → β) (l : List α) (a : α) :
    a ∈ sortDescBy key l ↔ a ∈ l :=
  List.mem_insertionSort _

theorem filter_key_orderedInsert {α β : Type} [LinearOrder β] (key : α → β) (c : β)
    (x : α) (l : List α) :
    (List.orderedInsert (fun a b => key b ≤ key a) x l).filter (fun a => key a = c) =
      if key x = c then x :: l.filter (fun a => key a = c)
      else l.filter (fun a => key a = c) := by
  induction l with
  | nil => by_cases hx : key x = c <;> simp [List.orderedInsert, hx]
  | cons y ys ih =>
    by_cases hxy : key y ≤ key x
    · simp only [List.orderedInsert, if_pos hxy]
      by_cases hx : key x = c <;> simp [List.filter_cons, hx]
    · simp only [List.orderedInsert, if_neg hxy]
      have hlt : key x < key y := lt_of_not_le hxy
      by_cases hx : key x = c
      · have hy : ¬ (key y = c) := by
          intro hyc
          exact absurd (hyc ▸ hlt) (by simp [hx])
        simp [List.filter_cons, hx, hy, ih]
      · by_cases hy : key y = c <;> simp [List.filter_cons, hx, hy, ih]

/-- Stability of `sortDescBy`: elements whose key equals any fixed value
keep their original relative order (their filtered subsequence is
unchanged by the sort). -/
theorem filter_key_sortDescBy {α β : Type} [LinearOrder β] (key : α → β) (c : β)
    (l : List α) :
    (sortDescBy key l).filter (fun a => key a = c) = l.filter (fun a => key a = c) := by
  induction l with
  | nil => rfl
  | cons x xs ih =>
    show (List.orderedInsert _ x (List.insertionSort _ xs)).filter _ = _
    rw [filter_key_orderedInsert key c x]
    simp only [sortDescBy] at ih
    by_cases hx : key x = c <;> simp [List.filter_cons, hx, ih]

theorem classify_picks_eq_filter (score : String → String → Nat)
    (picks : List TaggedPick) (fighter_a fighter_b : String) :
    classify_picks score picks fighter_a fighter_b =
      (picks.filter (condA score fighter_a fighter_b),
       picks.filter (condB score fighter_a fighter_b)) := by
  induction picks with
  | nil => rfl
  | cons p rest ih =>
    simp only [classify_picks, ih]
    by_cases hA : (condA score fighter_a fighter_b p : Prop)
    · have hB : ¬ (condB score fighter_a fighter_b p : Prop) := by
        simp only [condA, decide_eq_true_eq] at hA
        simp only [condB, decide_eq_true_eq]
        rintro ⟨hlt, -⟩
        exact absurd hA.1 (not_le_of_lt hlt)
      simp only [condA, condB, decide_eq_true_eq] at hA hB
      simp [List.filter_cons, condA, condB, hA, hB]
    · by_cases hB : (condB score fighter_a fighter_b p : Prop)
      · simp only [condA, condB, decide_eq_true_eq] at hA hB
        simp [List.filter_cons, condA, condB, hA, hB]
      · simp only [condA, condB, decide_eq_true_eq] at hA hB
        simp [List.filter_cons, condA, condB, hA, hB]

/-- The function `aggregate_fight_context` only reads the store: the
state coming out of the call is the state that went in. -/
theorem aggregate_fight_contextS_reads_only (score : String → String → Nat)
    (fight_id : Nat) (fight_meta : Option FightRow) (s : Store) :
    (aggregate_fight_contextS score fight_id fight_meta s).2 = s := by
  unfold aggregate_fight_contextS fights_findS events_findS get_picks_for_fightS
  cases fight_meta with
  | some m =>
    simp only
    split <;> rfl
  | none =>
    simp only
    cases hrow : s.fights.find? (fun f => f.fight_id == fight_id)
    · simp [hrow]
    · simp only [hrow]
      split <;> rfl

/-- C1: for every list of picks and every fighter pair, side
classification assigns each pick to exactly one side or to neither,
never both: a pick is in the A-list iff its A-score is at least its
B-score and at least 60, in the B-list iff its B-score is strictly
greater and at least 60 (so never in both); a tie with score at least
60 resolves to fighter A, and a pick scoring below 60 on both sides
lands in neither list. -/
theorem classify_picks_exactly_one_side
    (score : String → String → Nat) (picks : List TaggedPick)
    (fighter_a fighter_b : String) (p : TaggedPick) :
    (p ∈ (classify_picks score picks fighter_a fighter_b).1 ↔
      p ∈ picks ∧ pickScore score p fighter_b ≤ pickScore score p fighter_a ∧
        60 ≤ pickScore score p fighter_a) ∧
    (p ∈ (classify_picks score picks fighter_a fighter_b).2 ↔
      p ∈ picks ∧ pickScore score p fighter_a < pickScore score p fighter_b ∧
        60 ≤ pickScore score p fighter_b) ∧
    ¬ (p ∈ (classify_picks score picks fighter_a fighter_b).1 ∧
       p ∈ (classify_picks score picks fighter_a fighter_b).2) ∧
    (pickScore score p fighter_a = pickScore score p fighter_b →
      60 ≤ pickScore score p fighter_a → p ∈ picks →
      p ∈ (classify_picks score picks fighter_a fighter_b).1 ∧
      ¬ p ∈ (classify_picks score picks fighter_a fighter_b).2) ∧
    (pickScore score p fighter_a < 60 → pickScore score p fighter_b < 60 →
      ¬ p ∈ (classify_picks score picks fighter_a fighter_b).1 ∧
      ¬ p ∈ (classify_picks score picks fighter_a fighter_b).2) := by
  rw [classify_picks_eq_filter]
  simp only [List.mem_filter, condA, condB, decide_eq_true_eq]
  refine ⟨trivial, trivial, ?_, ?_, ?_⟩
  · rintro ⟨⟨-, hba, -⟩, ⟨-, hab, -⟩⟩
    exact absurd hba (not_le_of_lt hab)
  · intro heq h60 hmem
    refine ⟨⟨hmem, le_of_eq heq.symm, h60⟩, ?_⟩
    rintro ⟨-, hab, -⟩
    exact absurd (le_of_eq heq.symm) (not_le_of_lt hab)
  · intro ha hb
    constructor
    · rintro ⟨-, -, h60⟩
      exact absurd h60 (not_le_of_lt ha)
    · rintro ⟨-, -, h60⟩
      exact absurd h60 (not_le_of_lt hb)

/-- Closed witness for C1 at a concrete input: an exactly tying pick
(both sides named Alice) joins the A-list and not the B-list. -/
theorem classify_picks_exactly_one_side_witness :
    pickAlice ∈ (classify_picks exactScore [pickAlice] "Alice" "Alice").1 ∧
    ¬ pickAlice ∈ (classify_picks exactScore [pickAlice] "Alice" "Alice").2 :=
  (classify_picks_exactly_one_side exactScore [pickAlice] "Alice" "Alice" pickAlice).2.2.2.1
    rfl (by decide) (by decide)

/-- Characterization of a successful `aggregate_fight_context` call:
some fight metadata was available, the fight has at least one pick, and
the context is built from exactly the picks of the fight. -/
theorem aggregate_some_char (score : String → String → Nat) (s : Store) (fid : Nat)
    (meta : Option FightRow) (ctx : FightContext)
    (h : aggregate_fight_context score s fid meta = some ctx) :
    ∃ m, (get_picks_for_fight s fid).isEmpty = false ∧
      ctx = build_fight_context score m (get_picks_for_fight s fid) := by
  unfold aggregate_fight_context aggregate_fight_contextS at h
  cases meta with
  | some m =>
    simp only [fights_findS, events_findS, get_picks_for_fightS] at h
    by_cases hE : (get_picks_for_fight s fid).isEmpty
    · simp [hE] at h
    · simp only [hE, if_neg Bool.false_ne_true] at h
      exact ⟨m, by simp [hE], (Option.some.inj h).symm⟩
  | none =>
    simp only [fights_findS, events_findS, get_picks_for_fightS] at h
    cases hrow : s.fights.find? (fun f => f.fight_id == fid) with
    | none => rw [hrow] at h; simp at h
    | some row =>
      rw [hrow] at h
      by_cases hE : (get_picks_for_fight s fid).isEmpty
      · simp [hE] at h
      · simp only [hE, if_neg Bool.false_ne_true] at h
        exact ⟨_, by simp [hE], (Option.some.inj h).symm⟩

/-- Two filters with incompatible predicates together keep at most all
elements. -/
theorem length_filter_add_length_filter_le {α : Type} (l : List α) (p q : α → Bool)
    (hpq : ∀ x, ¬ (p x = true ∧ q x = true)) :
    (l.filter p).length + (l.filter q).length ≤ l.length := by
  induction l with
  | nil => simp
  | cons x xs ih =>
    cases hp : p x <;> cases hq : q x
    · simp [List.filter_cons, hp, hq]; omega
    · simp [List.filter_cons, hp, hq]; omega
    · simp [List.filter_cons, hp, hq]; omega
    · exact absurd ⟨hp, hq⟩ (hpq x)

/-- C2 amended: in the context returned by `aggregate_fight_context`, a
pick scoring below 60 against both fighter names is excluded from both
side lists (hence from `picks_for_a` and `picks_for_b`), and the side
counts satisfy `picks_for_a + picks_for_b ≤ total_predictions`; however
`total_predictions` is the count of all picks of the fight, so an
unclassifiable pick still counts toward `total_predictions`. -/
theorem aggregate_fight_context_totals (score : String → String → Nat) (s : Store)
    (fid : Nat) (meta : Option FightRow) (ctx : FightContext)
    (h : aggregate_fight_context score s fid meta = some ctx) :
    ctx.summary.total_predictions = (get_picks_for_fight s fid).length ∧
    ∃ fa fb pa pb,
      classify_picks score (get_picks_for_fight s fid) fa fb = (pa, pb) ∧
      ctx.summary.picks_for_a = pa.length ∧
      ctx.summary.picks_for_b = pb.length ∧
      ctx.summary.picks_for_a + ctx.summary.picks_for_b ≤ ctx.summary.total_predictions ∧
      ∀ p ∈ get_picks_for_fight s fid,
        pickScore score p fa < 60 → pickScore score p fb < 60 → ¬ p ∈ pa ∧ ¬ p ∈ pb := by
  obtain ⟨m, hne, hctx⟩ := aggregate_some_char score s fid meta ctx h
  subst hctx
  have hcl := classify_picks_eq_filter score (get_picks_for_fight s fid)
    m.fighter_a m.fighter_b
  refine ⟨rfl, m.fighter_a, m.fighter_b, _, _, hcl, ?_, ?_, ?_, ?_⟩
  · simp [build_fight_context, hcl]
  · simp [build_fight_context, hcl]
  · simp only [build_fight_context, hcl]
    refine length_filter_add_length_filter_le _ _ _ ?_
    intro x
    simp only [condA, condB, decide_eq_true_eq]
    rintro ⟨⟨hba, -⟩, ⟨hab, -⟩⟩
    exact absurd hba (not_le_of_lt hab)
  · intro p hp ha hb
    constructor
    · intro hmem
      rcases (List.mem_filter.mp hmem).2 with hc
      simp only [condA, decide_eq_true_eq] at hc
      exact absurd hc.2 (not_le_of_lt ha)
    · intro hmem
      rcases (List.mem_filter.mp hmem).2 with hc
      simp only [condB, decide_eq_true_eq] at hc
      exact absurd hc.2 (not_le_of_lt hb)

/-- Counterexample to C2 as stated: the single pick of the fight scores
below 60 against both fighter names (so it is unclassifiable and lands
in neither side list), yet `total_predictions` is 1, not 0 — the
unclassifiable pick does count toward `total_predictions` in the
context returned by `aggregate_fight_context`. -/
theorem aggregate_total_counts_unclassifiable :
    pickScore exactScore pickXYZ "Alice" < 60 ∧
    pickScore exactScore pickXYZ "Bob" < 60 ∧
    get_picks_for_fight storeC2 1 = [pickXYZ] ∧
    (aggregate_fight_context exactScore storeC2 1 (some metaC2)).map
      (fun ctx => (ctx.summary.total_predictions, ctx.summary.picks_for_a,
        ctx.summary.picks_for_b)) = some (1, 0, 0) := by
  refine ⟨by decide, by decide, by decide, by decide⟩

/-- Closed witness for the amended C2 at the concrete store. -/
theorem aggregate_fight_context_totals_witness :
    ∃ ctx, aggregate_fight_context exactScore storeC2 1 (some metaC2) = some ctx ∧
      (ctx.summary.total_predictions = (get_picks_for_fight storeC2 1).length ∧
       ∃ fa fb pa pb,
         classify_picks exactScore (get_picks_for_fight storeC2 1) fa fb = (pa, pb) ∧
         ctx.summary.picks_for_a = pa.length ∧
         ctx.summary.picks_for_b = pb.length ∧
         ctx.summary.picks_for_a + ctx.summary.picks_for_b ≤ ctx.summary.total_predictions ∧
         ∀ p ∈ get_picks_for_fight storeC2 1,
           pickScore exactScore p fa < 60 → pickScore exactScore p fb < 60 →
             ¬ p ∈ pa ∧ ¬ p ∈ pb) :=
  ⟨_, rfl, aggregate_fight_context_totals exactScore storeC2 1 (some metaC2) _ rfl⟩

/-- Characterization of a consensus entry produced for a fight: the
classified side lists determine every field, and at least one pick
classified. -/
theorem consensus_entry_char (score : String → String → Nat) (s : Store) (fight : Fight)
    (e : ConsensusEntry) (h : consensus_entry_for_fight score s fight = some e) :
    ∃ pa pb,
      classify_picks score (get_picks_for_fight s fight.fight_id) fight.fighter_a
        fight.fighter_b = (pa, pb) ∧
      0 < pa.length + pb.length ∧
      e = { fight := fight.fighter_a ++ " vs " ++ fight.fighter_b
            fighter_a := fight.fighter_a
            fighter_b := fight.fighter_b
            consensus_fighter :=
              if pb.length ≤ pa.length then fight.fighter_a else fight.fighter_b
            consensus_count := max pa.length pb.length
            opposing_count := min pa.length pb.length
            total_predictions := pa.length + pb.length
            consensus_percentage :=
              (max ((pa.length : Nat) : Rat) ((pb.length : Nat) : Rat) /
                (((pa.length + pb.length : Nat)) : Rat)) * 100
            high_accuracy_count := max pa.length pb.length } := by
  rcases hcl : classify_picks score (get_picks_for_fight s fight.fight_id) fight.fighter_a
    fight.fighter_b with ⟨pa, pb⟩
  simp only [consensus_entry_for_fight, hcl] at h
  by_cases h1 : (get_picks_for_fight s fight.fight_id).isEmpty = true
  · rw [if_pos h1] at h
    exact absurd h (by simp)
  · rw [if_neg h1] at h
    by_cases h2 : pa.length + pb.length = 0
    · rw [if_pos h2] at h
      exact absurd h (by simp)
    · rw [if_neg h2] at h
      exact ⟨pa, pb, rfl, Nat.pos_of_ne_zero h2, (Option.some.inj h).symm⟩

/-- Characterization of a successful `get_event_consensus_picks` call:
the event resolved and the entry list is the stable descending sort of
the per-fight entries. -/
theorem consensus_result_char (score : String → String → Nat) (s : Store) (name : String)
    (res : ConsensusResult) (h : get_event_consensus_picks score s name = some res) :
    ∃ ev, get_event s name = some ev ∧ res.event = ev.name ∧ res.results_entered = false ∧
      res.consensus_picks = sortDescBy (fun e => e.consensus_percentage)
        ((get_fights_for_event s ev.event_id).filterMap (consensus_entry_for_fight score s)) := by
  unfold get_event_consensus_picks at h
  cases hev : get_event s name with
  | none => rw [hev] at h; simp at h
  | some ev =>
    rw [hev] at h
    have hres := (Option.some.inj h).symm
    subst hres
    exact ⟨ev, rfl, rfl, rfl, rfl⟩

/-- C3: every entry of `get_event_consensus_picks` is built from the
classified sides of a fight of the event: the consensus fighter is the
majority side (fighter A on a tie), the consensus and opposing counts
are the majority and minority sizes, the percentage is
consensus over classified total times 100; fights with zero classified
picks produce no entry; the list is sorted descending by percentage
with the original fight order preserved among equal percentages; and on
the demo store the 3-1 scenario yields exactly one entry (Alice, 3, 1,
75 percent). -/
theorem consensus_picks_spec (score : String → String → Nat) (s : Store) (name : String)
    (res : ConsensusResult) (h : get_event_consensus_picks score s name = some res) :
    (∃ ev, get_event s name = some ev ∧ res.event = ev.name ∧
      (∀ e ∈ res.consensus_picks,
        ∃ fight ∈ get_fights_for_event s ev.event_id, ∃ pa pb,
          classify_picks score (get_picks_for_fight s fight.fight_id) fight.fighter_a
            fight.fighter_b = (pa, pb) ∧
          0 < pa.length + pb.length ∧
          e.consensus_fighter =
            (if pb.length ≤ pa.length then fight.fighter_a else fight.fighter_b) ∧
          e.consensus_count = max pa.length pb.length ∧
          e.opposing_count = min pa.length pb.length ∧
          e.total_predictions = pa.length + pb.length ∧
          e.consensus_percentage =
            ((e.consensus_count : Rat) / (e.total_predictions : Rat)) * 100) ∧
      (∀ fight pa pb,
        classify_picks score (get_picks_for_fight s fight.fight_id) fight.fighter_a
          fight.fighter_b = (pa, pb) →
        pa.length + pb.length = 0 →
        consensus_entry_for_fight score s fight = none) ∧
      List.Sorted (fun x y => y.consensus_percentage ≤ x.consensus_percentage)
        res.consensus_picks ∧
      (∀ c : Rat, res.consensus_picks.filter (fun e => e.consensus_percentage = c) =
        ((get_fights_for_event s ev.event_id).filterMap
          (consensus_entry_for_fight score s)).filter
            (fun e => e.consensus_percentage = c))) ∧
    (∃ e, get_event_consensus_picks exactScore demoStore "UFC 100" =
        some { event := "UFC 100", results_entered := false, consensus_picks := [e] } ∧
      e.consensus_fighter = "Alice" ∧ e.consensus_count = 3 ∧ e.opposing_count = 1 ∧
      e.total_predictions = 4 ∧ e.consensus_percentage = 75) := by
  obtain ⟨ev, hev, hevent, -, hlist⟩ := consensus_result_char score s name res h
  constructor
  · refine ⟨ev, hev, hevent, ?_, ?_, ?_, ?_⟩
    · intro e he
      rw [hlist, mem_sortDescBy] at he
      obtain ⟨fight, hf, hentry⟩ := List.mem_filterMap.mp he
      obtain ⟨pa, pb, hcl, hpos, hE⟩ := consensus_entry_char score s fight e hentry
      subst hE
      refine ⟨fight, hf, pa, pb, hcl, hpos, rfl, rfl, rfl, rfl, ?_⟩
      push_cast
      ring
    · intro fight pa pb hcl h0
      simp only [consensus_entry_for_fight, hcl]
      by_cases h1 : (get_picks_for_fight s fight.fight_id).isEmpty = true
      · rw [if_pos h1]
      · rw [if_neg h1, if_pos h0]
    · rw [hlist]
      exact sorted_sortDescBy _ _
    · intro c
      rw [hlist]
      exact filter_key_sortDescBy _ c _
  · refine ⟨_, rfl, by decide, by decide, by decide, by decide, ?_⟩
    show max ((3 : Nat) : Rat) ((1 : Nat) : Rat) / ((4 : Nat) : Rat) * 100 = 75
    rw [max_eq_left (by norm_num : ((1 : Nat) : Rat) ≤ ((3 : Nat) : Rat))]
    norm_num

/-- C10: every consensus entry has percentage at least 50 and a
consensus count at least the opposing count, because the consensus side
is the larger classified side. -/
theorem consensus_majority_bounds (score : String → String → Nat) (s : Store) (name : String)
    (res : ConsensusResult) (h : get_event_consensus_picks score s name = some res) :
    ∀ e ∈ res.consensus_picks,
      50 ≤ e.consensus_percentage ∧ e.opposing_count ≤ e.consensus_count := by
  obtain ⟨ev, hev, -, -, hlist⟩ := consensus_result_char score s name res h
  intro e he
  rw [hlist, mem_sortDescBy] at he
  obtain ⟨fight, hf, hentry⟩ := List.mem_filterMap.mp he
  obtain ⟨pa, pb, hcl, hpos, hE⟩ := consensus_entry_char score s fight e hentry
  subst hE
  constructor
  · have htot : (0 : Rat) < ((pa.length + pb.length : Nat) : Rat) := by
      exact_mod_cast hpos
    rw [div_mul_eq_mul_div, le_div_iff₀ htot]
    have hmax : pa.length + pb.length ≤ 2 * max pa.length pb.length := by
      rcases Nat.le_total pa.length pb.length with hab | hab
      · rw [Nat.max_eq_right hab]; omega
      · rw [Nat.max_eq_left hab]; omega
    have hcast : ((pa.length + pb.length : Nat) : Rat) ≤
        2 * ((max pa.length pb.length : Nat) : Rat) := by
      exact_mod_cast hmax
    rw [← Nat.cast_max]
    linarith [hcast]
  · exact min_le_max

/-- Closed witness for C3: the demo-store scenario instance of the
theorem. -/
theorem consensus_picks_spec_witness :
    ∃ e, get_event_consensus_picks exactScore demoStore "UFC 100" =
        some { event := "UFC 100", results_entered := false, consensus_picks := [e] } ∧
      e.consensus_fighter = "Alice" ∧ e.consensus_count = 3 ∧ e.opposing_count = 1 ∧
      e.total_predictions = 4 ∧ e.consensus_percentage = 75 :=
  (consensus_picks_spec exactScore demoStore "UFC 100" _ rfl).2

/-- Closed witness for C10 on the demo store. -/
theorem consensus_majority_bounds_witness :
    ∃ res, get_event_consensus_picks exactScore demoStore "UFC 100" = some res ∧
      ∀ e ∈ res.consensus_picks,
        50 ≤ e.consensus_percentage ∧ e.opposing_count ≤ e.consensus_count :=
  ⟨_, rfl, consensus_majority_bounds exactScore demoStore "UFC 100" _ rfl⟩

/-- Characterization of a successful `get_event_underdogs` call. -/
theorem underdog_result_char (score : String → String → Nat) (s : Store) (name : String)
    (res : UnderdogResult) (h : get_event_underdogs score s name = some res) :
    ∃ ev, get_event s name = some ev ∧ res.event = ev.name ∧
      res.underdog_picks = sortDescBy (fun e => e.value_score)
        ((get_fights_for_event s ev.event_id).filterMap (underdog_entry_for_fight score s)) := by
  unfold get_event_underdogs at h
  cases hev : get_event s name with
  | none => rw [hev] at h; simp at h
  | some ev =>
    rw [hev] at h
    have hres := (Option.some.inj h).symm
    subst hres
    exact ⟨ev, rfl, rfl, rfl⟩

/-- Characterization of an underdog entry produced for a fight: the
qualification guards passed and every field is determined by the
classified side lists. -/
theorem underdog_entry_char (score : String → String → Nat) (s : Store) (fight : Fight)
    (e : UnderdogEntry) (h : underdog_entry_for_fight score s fight = some e) :
    ∃ pa pb,
      classify_picks score (get_picks_for_fight s fight.fight_id) fight.fighter_a
        fight.fighter_b = (pa, pb) ∧
      ¬ (pa.length + pb.length < 5) ∧
      ¬ ((if pa.length < pb.length then pa else pb).length < 2 ∨
        (((pa.length + pb.length : Nat)) : Rat) / 2 ≤
          (((if pa.length < pb.length then pa else pb).length : Nat) : Rat)) ∧
      e = { fight := fight.fighter_a ++ " vs " ++ fight.fighter_b
            fighter_a := fight.fighter_a
            fighter_b := fight.fighter_b
            underdog := if pa.length < pb.length then fight.fighter_a else fight.fighter_b
            underdog_count := (if pa.length < pb.length then pa else pb).length
            favorite_count := (if pa.length < pb.length then pb else pa).length
            total_predictions := pa.length + pb.length
            underdog_percentage :=
              ((((if pa.length < pb.length then pa else pb).length : Nat) : Rat) /
                (((pa.length + pb.length : Nat)) : Rat)) * 100
            high_accuracy_analysts :=
              (if pa.length < pb.length then pa else pb).map (fun p =>
                { name := p.analyst_name, accuracy := 0, reasoning := p.reasoning_notes })
            value_score :=
              (((if pa.length < pb.length then pa else pb).length : Nat) : Rat) /
                (((pa.length + pb.length : Nat)) : Rat)
            top_tags :=
              (most_common 3 (counter
                (((if pa.length < pb.length then pa else pb).map (fun p => p.tags)).flatten))).map
                  (fun it => { tag := it.1, count := it.2 }) } := by
  rcases hcl : classify_picks score (get_picks_for_fight s fight.fight_id) fight.fighter_a
    fight.fighter_b with ⟨pa, pb⟩
  simp only [underdog_entry_for_fight, hcl] at h
  by_cases h1 : pa.length + pb.length < 5
  · rw [if_pos h1] at h
    exact absurd h (by simp)
  · rw [if_neg h1] at h
    by_cases h2 : (if pa.length < pb.length then pa else pb).length < 2 ∨
        (((pa.length + pb.length : Nat)) : Rat) / 2 ≤
          (((if pa.length < pb.length then pa else pb).length : Nat) : Rat)
    · rw [if_pos h2] at h
      exact absurd h (by simp)
    · rw [if_neg h2] at h
      exact ⟨pa, pb, rfl, h1, h2, (Option.some.inj h).symm⟩

/-- C4: every returned underdog entry comes from a fight with at least
five classified picks; the underdog is the strictly smaller side (so
tied fights are excluded), its count is at least 2 and strictly below
half the classified total, the value score is underdog count over
total, and the list is sorted descending by value score. -/
theorem underdogs_spec (score : String → String → Nat) (s : Store) (name : String)
    (res : UnderdogResult) (h : get_event_underdogs score s name = some res) :
    (∀ e ∈ res.underdog_picks,
      ∃ (fight : Fight) (pa pb : List TaggedPick),
        classify_picks score (get_picks_for_fight s fight.fight_id) fight.fighter_a
          fight.fighter_b = (pa, pb) ∧
        5 ≤ pa.length + pb.length ∧
        e.total_predictions = pa.length + pb.length ∧
        2 ≤ e.underdog_count ∧
        ((e.underdog_count : Nat) : Rat) < ((e.total_predictions : Nat) : Rat) / 2 ∧
        e.underdog_count = min pa.length pb.length ∧
        e.favorite_count = max pa.length pb.length ∧
        e.underdog_count < e.favorite_count ∧
        e.underdog = (if pa.length < pb.length then fight.fighter_a else fight.fighter_b) ∧
        e.value_score = ((e.underdog_count : Nat) : Rat) / ((e.total_predictions : Nat) : Rat)) ∧
    List.Sorted (fun x y => y.value_score ≤ x.value_score) res.underdog_picks := by
  obtain ⟨ev, hev, -, hlist⟩ := underdog_result_char score s name res h
  constructor
  · intro e he
    rw [hlist, mem_sortDescBy] at he
    obtain ⟨fight, hf, hentry⟩ := List.mem_filterMap.mp he
    obtain ⟨pa, pb, hcl, h5, hg, hE⟩ := underdog_entry_char score s fight e hentry
    push_neg at hg
    obtain ⟨hg2, hghalf⟩ := hg
    subst hE
    have hu2 : 2 * (if pa.length < pb.length then pa else pb).length <
        pa.length + pb.length := by
      have h2r : 2 * (((if pa.length < pb.length then pa else pb).length : Nat) : Rat) <
          (((pa.length + pb.length : Nat)) : Rat) := by
        linarith [hghalf]
      exact_mod_cast h2r
    have humin : (if pa.length < pb.length then pa else pb).length =
        min pa.length pb.length := by
      by_cases hab : pa.length < pb.length
      · simp [hab, Nat.min_eq_left (le_of_lt hab)]
      · simp [hab, Nat.min_eq_right (Nat.le_of_not_lt hab)]
    have hfmax : (if pa.length < pb.length then pb else pa).length =
        max pa.length pb.length := by
      by_cases hab : pa.length < pb.length
      · simp [hab, Nat.max_eq_right (le_of_lt hab)]
      · simp [hab, Nat.max_eq_left (Nat.le_of_not_lt hab)]
    have hlt : (if pa.length < pb.length then pa else pb).length <
        (if pa.length < pb.length then pb else pa).length := by
      by_cases hab : pa.length < pb.length
      · simp only [hab, if_true]
      · simp only [hab, if_false]
        omega
    exact ⟨fight, pa, pb, hcl, by omega, rfl, hg2, hghalf, humin, hfmax, hlt, rfl, rfl⟩
  · rw [hlist]
    exact sorted_sortDescBy _ _

/-- Evaluation of the underdog pipeline on the demo store (the rational
guard is discharged with norm_num since rational arithmetic does not
reduce definitionally). -/
theorem underdogs_demo_eval :
    get_event_underdogs exactScore storeU "UFC 200" =
      some { event := "UFC 200", results_entered := false, underdog_picks := [entryU] } := by
  have hentry : underdog_entry_for_fight exactScore storeU fightU = some entryU := by
    show (if (2 : Nat) < 2 ∨ (((6 : Nat)) : Rat) / 2 ≤ (((2 : Nat)) : Rat) then none
      else some entryU) = some entryU
    rw [if_neg (by push_cast; norm_num)]
  have hfights : (get_fights_for_event storeU 2).filterMap
      (underdog_entry_for_fight exactScore storeU) = [entryU] := by
    show List.filterMap (underdog_entry_for_fight exactScore storeU) [fightU] = [entryU]
    rw [List.filterMap_cons, hentry]
    rfl
  calc get_event_underdogs exactScore storeU "UFC 200"
      = some { event := "UFC 200"
               results_entered := false
               underdog_picks := sortDescBy (fun e => e.value_score)
                 ((get_fights_for_event storeU 2).filterMap
                   (underdog_entry_for_fight exactScore storeU)) } := rfl
    _ = some { event := "UFC 200", results_entered := false, underdog_picks := [entryU] } := by
          rw [hfights]
          rfl

/-- Closed witness for C4 on the demo store. -/
theorem underdogs_spec_witness :
    ∃ res, get_event_underdogs exactScore storeU "UFC 200" = some res ∧
      ((∀ e ∈ res.underdog_picks,
        ∃ (fight : Fight) (pa pb : List TaggedPick),
          classify_picks exactScore (get_picks_for_fight storeU fight.fight_id)
            fight.fighter_a fight.fighter_b = (pa, pb) ∧
          5 ≤ pa.length + pb.length ∧
          e.total_predictions = pa.length + pb.length ∧
          2 ≤ e.underdog_count ∧
          ((e.underdog_count : Nat) : Rat) < ((e.total_predictions : Nat) : Rat) / 2 ∧
          e.underdog_count = min pa.length pb.length ∧
          e.favorite_count = max pa.length pb.length ∧
          e.underdog_count < e.favorite_count ∧
          e.underdog = (if pa.length < pb.length then fight.fighter_a else fight.fighter_b) ∧
          e.value_score = ((e.underdog_count : Nat) : Rat) / ((e.total_predictions : Nat) : Rat)) ∧
      List.Sorted (fun x y => y.value_score ≤ x.value_score) res.underdog_picks) :=
  ⟨_, underdogs_demo_eval, underdogs_spec exactScore storeU "UFC 200" _ underdogs_demo_eval⟩

/-- Characterization of a successful `get_inside_distance_picks` call. -/
theorem inside_result_char (score : String → String → Nat) (s : Store) (name : String)
    (res : InsideResult) (h : get_inside_distance_picks score s name = some res) :
    ∃ ev, get_event s name = some ev ∧ res.event = ev.name ∧
      res.inside_distance_picks = sortDescBy (fun e => e.finish_prediction_count)
        ((get_fights_for_event s ev.event_id).filterMap (inside_entry_for_fight score s)) := by
  unfold get_inside_distance_picks at h
  cases hev : get_event s name with
  | none => rw [hev] at h; simp at h
  | some ev =>
    rw [hev] at h
    have hres := (Option.some.inj h).symm
    subst hres
    exact ⟨ev, rfl, rfl, rfl⟩

/-- Characterization of an inside-the-distance entry: at least three
finish-type picks, at least one of them classified, favored side the
one with more classified finish picks (A on a tie), count the maximum. -/
theorem inside_entry_char (score : String → String → Nat) (s : Store) (fight : Fight)
    (e : InsideEntry) (h : inside_entry_for_fight score s fight = some e) :
    ∃ pa pb,
      classify_picks score ((get_picks_for_fight s fight.fight_id).filter is_finish_pick)
        fight.fighter_a fight.fighter_b = (pa, pb) ∧
      3 ≤ ((get_picks_for_fight s fight.fight_id).filter is_finish_pick).length ∧
      ¬ (pa.length = 0 ∧ pb.length = 0) ∧
      e = { fight := fight.fighter_a ++ " vs " ++ fight.fighter_b
            fighter_a := fight.fighter_a
            fighter_b := fight.fighter_b
            favored_fighter :=
              if pb.length ≤ pa.length then fight.fighter_a else fight.fighter_b
            finish_prediction_count := max pa.length pb.length
            methods :=
              (((if (if pb.length ≤ pa.length then fight.fighter_a else fight.fighter_b) =
                    fight.fighter_a then pa else pb).filterMap
                  (fun p => truthyOpt p.method_prediction)).map (fun m => { method := m }))
            total_finish_predictions :=
              ((get_picks_for_fight s fight.fight_id).filter is_finish_pick).length } := by
  rcases hcl : classify_picks score ((get_picks_for_fight s fight.fight_id).filter is_finish_pick)
    fight.fighter_a fight.fighter_b with ⟨pa, pb⟩
  simp only [inside_entry_for_fight, hcl] at h
  by_cases h1 : ((get_picks_for_fight s fight.fight_id).filter is_finish_pick).length < 3
  · rw [if_pos h1] at h
    exact absurd h (by simp)
  · rw [if_neg h1] at h
    by_cases h2 : pa.length = 0 ∧ pb.length = 0
    · rw [if_pos h2] at h
      exact absurd h (by simp)
    · rw [if_neg h2] at h
      exact ⟨pa, pb, rfl, by omega, h2, (Option.some.inj h).symm⟩

/-- C5: every entry of `get_inside_distance_picks` comes from a fight
with at least three finish-predicting picks (method one of KO/TKO,
Submission, KO, TKO, Sub); the favored side is the side with more
classified finish picks (fighter A on a tie) and the count is that
side's count; the list is sorted non-increasing by count. -/
theorem inside_distance_spec (score : String → String → Nat) (s : Store) (name : String)
    (res : InsideResult) (h : get_inside_distance_picks score s name = some res) :
    (∀ e ∈ res.inside_distance_picks,
      ∃ (fight : Fight) (pa pb : List TaggedPick),
        classify_picks score ((get_picks_for_fight s fight.fight_id).filter is_finish_pick)
          fight.fighter_a fight.fighter_b = (pa, pb) ∧
        3 ≤ ((get_picks_for_fight s fight.fight_id).filter is_finish_pick).length ∧
        e.total_finish_predictions =
          ((get_picks_for_fight s fight.fight_id).filter is_finish_pick).length ∧
        (∀ p ∈ (get_picks_for_fight s fight.fight_id).filter is_finish_pick,
          ∃ m, p.method_prediction = some m ∧ m ∈ finish_methods) ∧
        e.favored_fighter =
          (if pb.length ≤ pa.length then fight.fighter_a else fight.fighter_b) ∧
        e.finish_prediction_count = max pa.length pb.length) ∧
    List.Sorted (fun x y => y.finish_prediction_count ≤ x.finish_prediction_count)
      res.inside_distance_picks := by
  obtain ⟨ev, hev, -, hlist⟩ := inside_result_char score s name res h
  constructor
  · intro e he
    rw [hlist, mem_sortDescBy] at he
    obtain ⟨fight, hf, hentry⟩ := List.mem_filterMap.mp he
    obtain ⟨pa, pb, hcl, h3, hne, hE⟩ := inside_entry_char score s fight e hentry
    subst hE
    refine ⟨fight, pa, pb, hcl, h3, rfl, ?_, rfl, rfl⟩
    intro p hp
    have hfin := (List.mem_filter.mp hp).2
    unfold is_finish_pick at hfin
    cases hm : p.method_prediction with
    | none => rw [hm] at hfin; exact absurd hfin (by simp)
    | some m =>
      rw [hm] at hfin
      exact ⟨m, rfl, by simpa using hfin⟩
  · rw [hlist]
    exact sorted_sortDescBy _ _

/-- Closed witness for C5 on the demo store. -/
theorem inside_distance_spec_witness :
    ∃ res, get_inside_distance_picks exactScore storeI "UFC 300" = some res ∧
      ((∀ e ∈ res.inside_distance_picks,
        ∃ (fight : Fight) (pa pb : List TaggedPick),
          classify_picks exactScore
            ((get_picks_for_fight storeI fight.fight_id).filter is_finish_pick)
            fight.fighter_a fight.fighter_b = (pa, pb) ∧
          3 ≤ ((get_picks_for_fight storeI fight.fight_id).filter is_finish_pick).length ∧
          e.total_finish_predictions =
            ((get_picks_for_fight storeI fight.fight_id).filter is_finish_pick).length ∧
          (∀ p ∈ (get_picks_for_fight storeI fight.fight_id).filter is_finish_pick,
            ∃ m, p.method_prediction = some m ∧ m ∈ finish_methods) ∧
          e.favored_fighter =
            (if pb.length ≤ pa.length then fight.fighter_a else fight.fighter_b) ∧
          e.finish_prediction_count = max pa.length pb.length) ∧
      List.Sorted (fun x y => y.finish_prediction_count ≤ x.finish_prediction_count)
        res.inside_distance_picks) :=
  ⟨_, rfl, inside_distance_spec exactScore storeI "UFC 300" _ rfl⟩

/-- Counterexample to C6 as stated: with a model call that fails, the
question "hello" (general intent) makes `answer_question` evaluate to
the propagated error, not to a well-formed error-typed answer — the
orchestrator catches nothing. -/
theorem answer_question_error_escapes :
    @answer_question String exactScore trivialGens
      (fun _ _ => Except.error "model unavailable") emptyStore "hello" =
      Except.error "model unavailable" := rfl

/-- C6 amended: `answer_question` contains no exception handling.  When
the model call always fails with `e`, the orchestrator either returns a
templated answer on a path that never calls the model (the not-found /
no-data paths, which carry no cost estimate) or propagates the
exception `e` to the caller. -/
theorem answer_question_no_exception_handling {eps : Type} (score : String → String → Nat)
    (gens : Generators) (s : Store) (q : String) (e : eps) :
    answer_question score gens (fun _ _ => Except.error e) s q = Except.error e ∨
    ∃ r, answer_question score gens (fun _ _ => Except.error e) s q = Except.ok r ∧
      r.metadata.query_type ∈ ["fight_not_found", "no_predictions", "missing_event",
        "event_not_found", "no_consensus", "no_underdogs"] ∧
      r.metadata.cost_estimate = none := by
  cases hdet : detect_query_type s q with
  | fight_specific fa fb en =>
    simp only [answer_question, hdet, handle_fight_specific]
    cases hfight : get_fight_by_fighters s fa fb en with
    | none => exact Or.inr ⟨_, rfl, by simp, rfl⟩
    | some fight =>
      simp only
      cases hctx : aggregate_fight_context score s fight.fight_id (some fight) with
      | none => exact Or.inr ⟨_, rfl, by simp [no_predictions_answer], rfl⟩
      | some context =>
        simp only
        by_cases h0 : context.summary.total_predictions = 0
        · rw [if_pos h0]
          exact Or.inr ⟨_, rfl, by simp [no_predictions_answer], rfl⟩
        · rw [if_neg h0]
          exact Or.inl rfl
  | inside_distance en =>
    simp only [answer_question, hdet, handle_inside_distance]
    cases en with
    | none => exact Or.inr ⟨_, rfl, by simp, rfl⟩
    | some n =>
      simp only
      cases hctx : get_inside_distance_picks score s n with
      | none => exact Or.inr ⟨_, rfl, by simp, rfl⟩
      | some context => exact Or.inl rfl
  | consensus_picks en =>
    simp only [answer_question, hdet, handle_consensus_picks]
    cases en with
    | none => exact Or.inr ⟨_, rfl, by simp, rfl⟩
    | some n =>
      simp only
      cases hctx : get_event_consensus_picks score s n with
      | none => exact Or.inr ⟨_, rfl, by simp, rfl⟩
      | some context =>
        simp only
        by_cases hc : context.consensus_picks.isEmpty = true
        · rw [if_pos hc]
          exact Or.inr ⟨_, rfl, by simp, rfl⟩
        · rw [if_neg hc]
          exact Or.inl rfl
  | underdogs en =>
    simp only [answer_question, hdet, handle_underdogs]
    cases en with
    | none => exact Or.inr ⟨_, rfl, by simp, rfl⟩
    | some n =>
      simp only
      cases hctx : get_event_underdogs score s n with
      | none => exact Or.inr ⟨_, rfl, by simp, rfl⟩
      | some context =>
        simp only
        by_cases hc : context.underdog_picks.isEmpty = true
        · rw [if_pos hc]
          exact Or.inr ⟨_, rfl, by simp, rfl⟩
        · rw [if_neg hc]
          exact Or.inl rfl
  | general =>
    simp only [answer_question, hdet, handle_general]
    exact Or.inl rfl

/-- C7: the question "Who will win Jones vs Aspinall?" is classified as
fight_specific; the extraction takes the last two words before the
separator ("win jones", title-cased to "Win Jones", whose last word is
exactly "Jones") as fighter A and the word after it ("Aspinall") as
fighter B. -/
theorem detect_jones_vs_aspinall (s : Store) :
    detect_query_type s "Who will win Jones vs Aspinall?" =
      QueryType.fight_specific "Win Jones" "Aspinall" none ∧
    strContains "Win Jones" "Jones" = true ∧
    (pyWords "Win Jones").getLast? = some "Jones" :=
  ⟨rfl, rfl, rfl⟩

/-- C8: two successive runs of the fight-context aggregation against
the same store produce the same context (all list orderings included,
since the outputs are equal as values) and leave the store unchanged. -/
theorem aggregate_fight_context_idempotent (score : String → String → Nat) (fight_id : Nat)
    (fight_meta : Option FightRow) (s : Store) :
    (aggregate_fight_contextS score fight_id fight_meta
        ((aggregate_fight_contextS score fight_id fight_meta s).2)).1 =
      (aggregate_fight_contextS score fight_id fight_meta s).1 ∧
    (aggregate_fight_contextS score fight_id fight_meta
        ((aggregate_fight_contextS score fight_id fight_meta s).2)).2 = s := by
  rw [aggregate_fight_contextS_reads_only]
  exact ⟨rfl, aggregate_fight_contextS_reads_only score fight_id fight_meta s⟩

/-- C9: cost estimation is a pure function of the token counts:
total_tokens is their sum and cost_usd is input over a million times 3
plus output over a million times 15, rounded to 5 decimal places. -/
theorem estimate_cost_spec (input_tokens output_tokens : Nat) :
    estimate_cost { input_tokens := input_tokens, output_tokens := output_tokens } =
      { input_tokens := input_tokens
        output_tokens := output_tokens
        total_tokens := input_tokens + output_tokens
        cost_usd := spec_cost_usd input_tokens output_tokens } := rfl
